import Mathlib

/-!
Verification development for the GoMetrics aggregation pipeline.

The Go source is shallowly embedded: each Go function becomes a Lean
definition over explicit state; Go's `time.Time` is modelled as `Int`
nanoseconds with `0` the zero-Time sentinel; `float64` fields are
modelled as `Rat` (the pipeline only moves these values, it never does
floating-point arithmetic on them); `uint64` fields are `Nat`, with the
one place that performs `uint64` arithmetic (the disk I/O summation)
reduced modulo 2^64; Go's buffered channel is modelled as a bounded
FIFO list; `select` statements whose enabled cases Go chooses among
nondeterministically are modelled as functions returning the list of
possible outcomes.
-/

namespace GoMetrics

/-- `time.Time`, as nanoseconds; `0` models the zero `time.Time`
(`Timestamp.IsZero()` ⟷ `= 0`). -/
abbrev Time := Int

/-- CPUMetric (internal/collect): overall percent, per-core percents,
1/5/15-minute load averages. Go slices' zero value (nil) is `[]`. -/
structure CPUMetric where
  overallPercent : Rat
  perCorePercent : List Rat
  loadAverage : List Rat
deriving DecidableEq, Repr

/-- MemoryMetric (internal/collect): RAM and swap statistics. -/
structure MemoryMetric where
  totalBytes : Nat
  availableBytes : Nat
  usedBytes : Nat
  usedPercent : Rat
  swapTotalBytes : Nat
  swapUsedBytes : Nat
  swapUsedPercent : Rat
deriving DecidableEq, Repr

/-- DiskMetric (internal/collect): root-filesystem usage and I/O stats. -/
structure DiskMetric where
  totalBytes : Nat
  freeBytes : Nat
  usedBytes : Nat
  usedPercent : Rat
  readBytes : Nat
  writeBytes : Nat
  readOps : Nat
  writeOps : Nat
deriving DecidableEq, Repr

/-- NetworkMetric (internal/collect): aggregated interface statistics. -/
structure NetworkMetric where
  bytesSent : Nat
  bytesRecv : Nat
  packetsSent : Nat
  packetsRecv : Nat
  errorsIn : Nat
  errorsOut : Nat
  dropsIn : Nat
  dropsOut : Nat
deriving DecidableEq, Repr

/-- The `Data any` field of a Go `Metric`. In the program the payload
stored there is always one of the four kind structs, so the dynamic
type is modelled as this sum; a type assertion `Data.(collect.X)`
becomes a match on the corresponding constructor. -/
inductive MetricData where
  | cpu (c : CPUMetric)
  | memory (m : MemoryMetric)
  | disk (d : DiskMetric)
  | network (n : NetworkMetric)
deriving DecidableEq, Repr

/-- Metric (internal/collect): kind tag, capture timestamp, payload. -/
structure Metric where
  type : String
  timestamp : Time
  data : MetricData
deriving DecidableEq, Repr

/-- Sample (internal/collect): merged snapshot of all four kinds. -/
structure Sample where
  timestamp : Time
  cpu : CPUMetric
  memory : MemoryMetric
  disk : DiskMetric
  network : NetworkMetric
deriving DecidableEq, Repr

/-- Go zero value of `CPUMetric` (nil slices modelled as `[]`). -/
def CPUMetric.zero : CPUMetric := ⟨0, [], []⟩

/-- Go zero value of `MemoryMetric`. -/
def MemoryMetric.zero : MemoryMetric := ⟨0, 0, 0, 0, 0, 0, 0⟩

/-- Go zero value of `DiskMetric`. -/
def DiskMetric.zero : DiskMetric := ⟨0, 0, 0, 0, 0, 0, 0, 0⟩

/-- Go zero value of `NetworkMetric`. -/
def NetworkMetric.zero : NetworkMetric := ⟨0, 0, 0, 0, 0, 0, 0, 0⟩

/-- Go zero value of `Sample`: zero timestamp, all payloads zero. -/
def Sample.zero : Sample := ⟨0, .zero, .zero, .zero, .zero⟩

/-- `Sample.IsComplete` (internal/collect): `!s.Timestamp.IsZero()`. -/
def Sample.IsComplete (s : Sample) : Bool := s.timestamp != 0

/-- The buffered Go channel `make(chan collect.Metric, bufferSize)`
created by `NewAggregator`: a bounded FIFO queue. -/
structure Mailbox where
  capacity : Nat
  queue : List Metric
deriving DecidableEq, Repr

/-- A non-blocking send on the buffered channel, as performed by the
collectors' `select { case output <- metric: ... default: ... }`:
succeeds (appends at the tail) iff the buffer has room, otherwise
leaves the channel untouched and reports failure. -/
def Mailbox.trySend (mb : Mailbox) (m : Metric) : Mailbox × Bool :=
  if mb.queue.length < mb.capacity then
    ({ mb with queue := mb.queue ++ [m] }, true)
  else
    (mb, false)

/-- A receive on the buffered channel (`metric := <-a.metricsChan`):
takes the oldest element from the head, or `none` if empty. -/
def Mailbox.recv (mb : Mailbox) : Option (Metric × Mailbox) :=
  match mb.queue with
  | [] => none
  | m :: rest => some (m, { mb with queue := rest })

/-- Aggregator (internal/agg): the state owned by the aggregator loop.
The channel, mutex, Prometheus registry and sample interval are
modelled separately (the mutex guards `latestSample`, which is copied
by value here; the Prometheus sink is a passive observer). -/
structure Aggregator where
  currentCPU : Option CPUMetric
  currentMemory : Option MemoryMetric
  currentDisk : Option DiskMetric
  currentNetwork : Option NetworkMetric
  latestSample : Sample
deriving DecidableEq, Repr

/-- `NewAggregator` (internal/agg): all fields start at their Go zero
values — nil pointers for the four current-metric slots and the
zero-valued `Sample` for `latestSample`. -/
def NewAggregator : Aggregator :=
  { currentCPU := none
    currentMemory := none
    currentDisk := none
    currentNetwork := none
    latestSample := Sample.zero }

/-- `Aggregator.GetLatestSample` (internal/agg): returns the stored
sample by value under `RLock`. -/
def Aggregator.GetLatestSample (a : Aggregator) : Sample :=
  a.latestSample

/-- `Aggregator.storeMetric` (internal/agg): switch on the kind tag,
type-assert the payload, overwrite the kind's slot on success; an
unknown tag is logged. The second component is the log line emitted,
if any (a failed type assertion under a known tag logs nothing). -/
def Aggregator.storeMetric (a : Aggregator) (metric : Metric) :
    Aggregator × Option String :=
  if metric.type = "cpu" then
    match metric.data with
    | .cpu cpuData => ({ a with currentCPU := some cpuData }, none)
    | _ => (a, none)
  else if metric.type = "memory" then
    match metric.data with
    | .memory memData => ({ a with currentMemory := some memData }, none)
    | _ => (a, none)
  else if metric.type = "disk" then
    match metric.data with
    | .disk diskData => ({ a with currentDisk := some diskData }, none)
    | _ => (a, none)
  else if metric.type = "network" then
    match metric.data with
    | .network netData => ({ a with currentNetwork := some netData }, none)
    | _ => (a, none)
  else
    (a, some ("Unknown metric type: " ++ metric.type))

/-- `Aggregator.createSample` (internal/agg): build a `Sample` stamped
with the current time, fill in each kind from its slot when present
(zero value otherwise), and store it as `latestSample` under the
write lock. The synchronous `promMetrics.UpdateFromSample` call goes
to the external exporter sink and has no effect on this state. -/
def Aggregator.createSample (a : Aggregator) (now : Time) : Aggregator :=
  let sample : Sample := { Sample.zero with timestamp := now }
  let sample := match a.currentCPU with
    | some c => { sample with cpu := c }
    | none => sample
  let sample := match a.currentMemory with
    | some m => { sample with memory := m }
    | none => sample
  let sample := match a.currentDisk with
    | some d => { sample with disk := d }
    | none => sample
  let sample := match a.currentNetwork with
    | some n => { sample with network := n }
    | none => sample
  { a with latestSample := sample }

/-- gopsutil `load.AvgStat`: 1/5/15-minute load averages. -/
structure AvgStat where
  load1 : Rat
  load5 : Rat
  load15 : Rat
deriving DecidableEq, Repr

/-- gopsutil `mem.VirtualMemoryStat` (the fields the program reads). -/
structure VirtualMemoryStat where
  total : Nat
  available : Nat
  used : Nat
  usedPercent : Rat
deriving DecidableEq, Repr

/-- gopsutil `mem.SwapMemoryStat` (the fields the program reads). -/
structure SwapMemoryStat where
  total : Nat
  used : Nat
  usedPercent : Rat
deriving DecidableEq, Repr

/-- gopsutil `disk.UsageStat` (the fields the program reads). -/
structure UsageStat where
  total : Nat
  free : Nat
  used : Nat
  usedPercent : Rat
deriving DecidableEq, Repr

/-- gopsutil `disk.IOCountersStat` (the fields the program reads). -/
structure DiskIOCountersStat where
  readBytes : Nat
  writeBytes : Nat
  readCount : Nat
  writeCount : Nat
deriving DecidableEq, Repr

/-- gopsutil `net.IOCountersStat` (the fields the program reads). -/
structure NetIOCountersStat where
  bytesSent : Nat
  bytesRecv : Nat
  packetsSent : Nat
  packetsRecv : Nat
  errin : Nat
  errout : Nat
  dropin : Nat
  dropout : Nat
deriving DecidableEq, Repr

/-- `CPUCollector.collectCPUMetrics` (internal/collect/cpu.go), with
each Probe Adapter call's result passed in explicitly. An error from
`cpu.Percent` (overall or per-core) aborts the cycle; an error from
`load.Avg` is only logged and replaced by a zero `AvgStat`. On
success the source reads `overallPercent[0]`; gopsutil returns a
one-element slice for the overall query, modelled by `headI`. -/
def CPUCollector.collectCPUMetrics (now : Time)
    (overallPercent : Except String (List Rat))
    (perCorePercent : Except String (List Rat))
    (loadAvgResult : Except String AvgStat) : Except String Metric :=
  match overallPercent with
  | .error e => .error e
  | .ok overall =>
    match perCorePercent with
    | .error e => .error e
    | .ok perCore =>
      let loadAvg := match loadAvgResult with
        | .error _ => AvgStat.mk 0 0 0
        | .ok l => l
      .ok { type := "cpu"
            timestamp := now
            data := .cpu { overallPercent := overall.headI
                           perCorePercent := perCore
                           loadAverage := [loadAvg.load1, loadAvg.load5, loadAvg.load15] } }

/-- The measurement handed to `MemoryCollector.collectAndSend`'s
try-send (internal/collect/memory.go): `none` when either probe call
fails and the cycle is skipped. -/
def MemoryCollector.collectAndSend (now : Time)
    (vmem : Except String VirtualMemoryStat)
    (swap : Except String SwapMemoryStat) : Option Metric :=
  match vmem with
  | .error _ => none
  | .ok v =>
    match swap with
    | .error _ => none
    | .ok s =>
      some { type := "memory"
             timestamp := now
             data := .memory { totalBytes := v.total
                               availableBytes := v.available
                               usedBytes := v.used
                               usedPercent := v.usedPercent
                               swapTotalBytes := s.total
                               swapUsedBytes := s.used
                               swapUsedPercent := s.usedPercent } }

/-- The measurement handed to `DiskCollector.collectAndSend`'s
try-send (internal/collect/disk.go): `none` when either probe call
fails. The I/O totals are `uint64` sums across disks, wrapping
modulo 2^64 at each addition. -/
def DiskCollector.collectAndSend (now : Time)
    (usage : Except String UsageStat)
    (ioCounters : Except String (List DiskIOCountersStat)) : Option Metric :=
  match usage with
  | .error _ => none
  | .ok u =>
    match ioCounters with
    | .error _ => none
    | .ok ios =>
      let totalReadBytes := ios.foldl (fun acc io => (acc + io.readBytes) % 2 ^ 64) 0
      let totalWriteBytes := ios.foldl (fun acc io => (acc + io.writeBytes) % 2 ^ 64) 0
      let totalReadOps := ios.foldl (fun acc io => (acc + io.readCount) % 2 ^ 64) 0
      let totalWriteOps := ios.foldl (fun acc io => (acc + io.writeCount) % 2 ^ 64) 0
      some { type := "disk"
             timestamp := now
             data := .disk { totalBytes := u.total
                             freeBytes := u.free
                             usedBytes := u.used
                             usedPercent := u.usedPercent
                             readBytes := totalReadBytes
                             writeBytes := totalWriteBytes
                             readOps := totalReadOps
                             writeOps := totalWriteOps } }

/-- The measurement handed to `NetworkCollector.collectAndSend`'s
try-send (internal/collect/network.go): `none` when the probe call
fails or reports no interfaces; otherwise built from the first (and
only, since aggregation was requested) counters entry. -/
def NetworkCollector.collectAndSend (now : Time)
    (ioCounters : Except String (List NetIOCountersStat)) : Option Metric :=
  match ioCounters with
  | .error _ => none
  | .ok l =>
    match l with
    | [] => none
    | netStats :: _ =>
      some { type := "network"
             timestamp := now
             data := .network { bytesSent := netStats.bytesSent
                                bytesRecv := netStats.bytesRecv
                                packetsSent := netStats.packetsSent
                                packetsRecv := netStats.packetsRecv
                                errorsIn := netStats.errin
                                errorsOut := netStats.errout
                                dropsIn := netStats.dropin
                                dropsOut := netStats.dropout } }

/-- Outcome of a worker's hand-off attempt: the send case ran, the
`default` case ran (metric dropped), or the `ctx.Done()` case ran
(worker returned mid-send). -/
inductive SendOutcome where
  | sent
  | dropped
  | aborted
deriving DecidableEq, Repr

/-- The CPU worker's hand-off `select` (internal/collect/cpu.go,
`Start`): cases `output <- metric` (ready iff the channel has room),
`<-ctx.Done()` (ready iff cancellation fired) and `default`. Go runs
one ready case, chosen nondeterministically when several are ready;
`default` runs only when none is. The result lists every outcome Go
may produce. -/
def CPUCollector.sendOutcomes (cancelled full : Bool) : List SendOutcome :=
  let ready := (if full then [] else [SendOutcome.sent])
    ++ (if cancelled then [SendOutcome.aborted] else [])
  if ready = [] then [SendOutcome.dropped] else ready

/-- The memory worker's hand-off `select` (memory.go,
`collectAndSend`): only `output <- metric` and `default` — no
`ctx.Done()` case, so cancellation is never observable here. -/
def MemoryCollector.sendOutcomes (cancelled full : Bool) : List SendOutcome :=
  let ready := if full then ([] : List SendOutcome) else [SendOutcome.sent]
  if ready = [] then [SendOutcome.dropped] else ready

/-- The disk worker's hand-off `select` (disk.go, `collectAndSend`):
same two cases as the memory worker's. -/
def DiskCollector.sendOutcomes (cancelled full : Bool) : List SendOutcome :=
  let ready := if full then ([] : List SendOutcome) else [SendOutcome.sent]
  if ready = [] then [SendOutcome.dropped] else ready

/-- The network worker's hand-off `select` (network.go,
`collectAndSend`): same two cases as the memory worker's. -/
def NetworkCollector.sendOutcomes (cancelled full : Bool) : List SendOutcome :=
  let ready := if full then ([] : List SendOutcome) else [SendOutcome.sent]
  if ready = [] then [SendOutcome.dropped] else ready

/-- The three Probe Adapter results one CPU collection cycle consumes. -/
structure CPUProbes where
  overallPercent : Except String (List Rat)
  perCorePercent : Except String (List Rat)
  loadAvg : Except String AvgStat
deriving Repr

/-- One wake-up of the CPU worker's loop `select`: a ticker fire
(with that cycle's probe results) or the cancellation signal. -/
inductive CPUEvent where
  | tick (now : Time) (probes : CPUProbes)
  | cancel
deriving Repr

/-- Trace model of `CPUCollector.Start` (cpu.go): the loop waits on
`ctx.Done()` and `ticker.C`; each processed tick contributes one
entry — the metric produced for hand-off, or `none` when collection
failed and the cycle was skipped (`continue`). Nothing is collected
before the first event: the body runs only from inside the loop. -/
def CPUCollector.start : List CPUEvent → List (Option Metric)
  | [] => []
  | .cancel :: _ => []
  | .tick now probes :: rest =>
    (match CPUCollector.collectCPUMetrics now probes.overallPercent
        probes.perCorePercent probes.loadAvg with
     | .error _ => none
     | .ok m => some m) :: CPUCollector.start rest

/-- The two Probe Adapter results one memory collection cycle consumes. -/
structure MemoryProbes where
  vmem : Except String VirtualMemoryStat
  swap : Except String SwapMemoryStat
deriving Repr

/-- One wake-up of the memory worker's loop `select`. -/
inductive MemoryEvent where
  | tick (now : Time) (probes : MemoryProbes)
  | cancel
deriving Repr

/-- The `for`/`select` loop of `MemoryCollector.Start` (memory.go). -/
def MemoryCollector.loop : List MemoryEvent → List (Option Metric)
  | [] => []
  | .cancel :: _ => []
  | .tick now probes :: rest =>
    MemoryCollector.collectAndSend now probes.vmem probes.swap
      :: MemoryCollector.loop rest

/-- Trace model of `MemoryCollector.Start` (memory.go): one
`collectAndSend` runs unconditionally before the loop ("Collect
initial metric immediately"), then the loop processes events. -/
def MemoryCollector.start (startNow : Time) (startProbes : MemoryProbes)
    (events : List MemoryEvent) : List (Option Metric) :=
  MemoryCollector.collectAndSend startNow startProbes.vmem startProbes.swap
    :: MemoryCollector.loop events

/-- The two Probe Adapter results one disk collection cycle consumes. -/
structure DiskProbes where
  usage : Except String UsageStat
  ioCounters : Except String (List DiskIOCountersStat)
deriving Repr

/-- One wake-up of the disk worker's loop `select`. -/
inductive DiskEvent where
  | tick (now : Time) (probes : DiskProbes)
  | cancel
deriving Repr

/-- The `for`/`select` loop of `DiskCollector.Start` (disk.go). -/
def DiskCollector.loop : List DiskEvent → List (Option Metric)
  | [] => []
  | .cancel :: _ => []
  | .tick now probes :: rest =>
    DiskCollector.collectAndSend now probes.usage probes.ioCounters
      :: DiskCollector.loop rest

/-- Trace model of `DiskCollector.Start` (disk.go): one initial
`collectAndSend` before the loop, then the loop. -/
def DiskCollector.start (startNow : Time) (startProbes : DiskProbes)
    (events : List DiskEvent) : List (Option Metric) :=
  DiskCollector.collectAndSend startNow startProbes.usage startProbes.ioCounters
    :: DiskCollector.loop events

/-- The Probe Adapter result one network collection cycle consumes. -/
structure NetworkProbes where
  ioCounters : Except String (List NetIOCountersStat)
deriving Repr

/-- One wake-up of the network worker's loop `select`. -/
inductive NetworkEvent where
  | tick (now : Time) (probes : NetworkProbes)
  | cancel
deriving Repr

/-- The `for`/`select` loop of `NetworkCollector.Start` (network.go). -/
def NetworkCollector.loop : List NetworkEvent → List (Option Metric)
  | [] => []
  | .cancel :: _ => []
  | .tick now probes :: rest =>
    NetworkCollector.collectAndSend now probes.ioCounters
      :: NetworkCollector.loop rest

/-- Trace model of `NetworkCollector.Start` (network.go): one initial
`collectAndSend` before the loop, then the loop. -/
def NetworkCollector.start (startNow : Time) (startProbes : NetworkProbes)
    (events : List NetworkEvent) : List (Option Metric) :=
  NetworkCollector.collectAndSend startNow startProbes.ioCounters
    :: NetworkCollector.loop events

/-- One wake-up of the aggregator loop's three-way `select`
(internal/agg, `Aggregator.Start`): a metric arrives on the channel,
the sample ticker fires (`now` is the `time.Now()` read inside
`createSample`), or cancellation fires. -/
inductive AggEvent where
  | recv (metric : Metric)
  | tick (now : Time)
  | cancel
deriving Repr

/-- Trace model of `Aggregator.Start`: a single serial loop that
stores each received metric and publishes a sample on each ticker
fire. Returns the final state and the published samples in order. -/
def Aggregator.start (a : Aggregator) : List AggEvent → Aggregator × List Sample
  | [] => (a, [])
  | .cancel :: _ => (a, [])
  | .recv metric :: rest => Aggregator.start (a.storeMetric metric).1 rest
  | .tick now :: rest =>
    let a2 := a.createSample now
    let res := Aggregator.start a2 rest
    (res.1, a2.latestSample :: res.2)

/-- `getEnv` (cmd/server/main.go): `value` is the raw `os.Getenv`
result (the empty string when the variable is unset). -/
def getEnv (value : String) (defaultValue : String) : String :=
  if value != "" then value else defaultValue

/-- `getEnvDuration` (cmd/server/main.go), with the external
`time.ParseDuration` passed in as `parseDuration` (`none` = error).
A parse success is returned verbatim; only an unset variable or a
parse error falls back to the default. -/
def getEnvDuration (parseDuration : String → Option Int)
    (value : String) (defaultValue : Int) : Int :=
  if value != "" then
    match parseDuration value with
    | some duration => duration
    | none => defaultValue
  else
    defaultValue

/-- `getEnvInt` (cmd/server/main.go), with the external
`strconv.Atoi` passed in as `atoi` (`none` = error). -/
def getEnvInt (atoi : String → Option Int)
    (value : String) (defaultValue : Int) : Int :=
  if value != "" then
    match atoi value with
    | some intVal => intVal
    | none => defaultValue
  else
    defaultValue

/-- The unit table of Go's `time.ParseDuration`, in nanoseconds. -/
def durationUnit : String → Option Int
  | "ns" => some 1
  | "us" => some 1000
  | "ms" => some 1000000
  | "s" => some 1000000000
  | "m" => some 60000000000
  | "h" => some 3600000000000
  | _ => none

/-- Leading decimal digits of a character list: their value and how
many characters were consumed, with the rest. -/
def leadingInt (acc : Nat) : List Char → Nat × Nat × List Char
  | [] => (acc, 0, [])
  | c :: rest =>
    if c.isDigit then
      let r := leadingInt (acc * 10 + (c.toNat - 48)) rest
      (r.1, r.2.1 + 1, r.2.2)
    else
      (acc, 0, c :: rest)

/-- One or more `<integer><unit>` components summed, `fuel`-bounded
(the fuel is the character count, and every component consumes at
least one character, so it never runs out on a real input). -/
def durationComponents : Nat → List Char → Int → Option Int
  | 0, _, _ => none
  | _ + 1, [], acc => some acc
  | fuel + 1, cs, acc =>
    let r := leadingInt 0 cs
    if r.2.1 = 0 then none
    else
      match r.2.2 with
      | '.' :: _ => none
      | rest =>
        let unitChars := rest.takeWhile (fun c => !(c.isDigit || c = '.'))
        let afterUnit := rest.dropWhile (fun c => !(c.isDigit || c = '.'))
        if unitChars = [] then none
        else
          match durationUnit (String.mk unitChars) with
          | none => none
          | some unit => durationComponents fuel afterUnit (acc + (r.1 : Int) * unit)

/-- The integer fragment of Go's `time.ParseDuration`: an optional
sign, the special form `"0"`, then one or more `<integer><unit>`
components with units ns/us/ms/s/m/h. Go additionally accepts
fractional components (`"1.5s"`) and the µs spellings, which this
model rejects; on every input this model accepts, its value agrees
with Go's. In particular a negative duration such as `"-5s"` parses
successfully in both. -/
def goParseDuration (s : String) : Option Int :=
  match s.toList with
  | [] => none
  | cs =>
    let neg := match cs with
      | '-' :: _ => true
      | _ => false
    let body := match cs with
      | '-' :: rest => rest
      | '+' :: rest => rest
      | _ => cs
    if body = ['0'] then some 0
    else
      match durationComponents (body.length + 1) body 0 with
      | none => none
      | some d => some (if neg then -d else d)

/-- Go's `strconv.Atoi`: optional sign, one or more decimal digits,
value within the 64-bit `int` range; anything else is an error. -/
def goAtoi (s : String) : Option Int :=
  match s.toList with
  | [] => none
  | cs =>
    let neg := match cs with
      | '-' :: _ => true
      | _ => false
    let digits := match cs with
      | '-' :: rest => rest
      | '+' :: rest => rest
      | _ => cs
    if digits = [] then none
    else if digits.all Char.isDigit then
      let v : Nat := digits.foldl (fun a c => a * 10 + (c.toNat - 48)) 0
      let i : Int := if neg then -(v : Int) else (v : Int)
      if -(2 ^ 63) ≤ i ∧ i < 2 ^ 63 then some i else none
    else
      none

/-- The closed enumeration of metric kinds (spec §3 MetricKind). -/
inductive Kind where
  | cpu
  | memory
  | disk
  | network
deriving DecidableEq, Repr

/-- The string tag each kind carries in a `Metric.type` field. -/
def Kind.tag : Kind → String
  | .cpu => "cpu"
  | .memory => "memory"
  | .disk => "disk"
  | .network => "network"

/-- The aggregator's slot for a kind, viewed uniformly. -/
def Aggregator.slot (a : Aggregator) : Kind → Option MetricData
  | .cpu => a.currentCPU.map .cpu
  | .memory => a.currentMemory.map .memory
  | .disk => a.currentDisk.map .disk
  | .network => a.currentNetwork.map .network

/-- A metric is well-formed when its tag matches its payload's type —
every metric the four collectors construct is. -/
def Metric.wellFormed (m : Metric) : Bool :=
  match m.data with
  | .cpu _ => m.type == "cpu"
  | .memory _ => m.type == "memory"
  | .disk _ => m.type == "disk"
  | .network _ => m.type == "network"

/-- Delivering a sequence of metrics to the aggregator: `storeMetric`
applied left to right, as the serial consumer loop does. -/
def Aggregator.deliver (a : Aggregator) (ms : List Metric) : Aggregator :=
  ms.foldl (fun acc m => (acc.storeMetric m).1) a

/-- The clock reads of an aggregator event schedule, up to the first
cancellation, in order: one per ticker fire. -/
def tickTimes : List AggEvent → List Time
  | [] => []
  | .cancel :: _ => []
  | .recv _ :: rest => tickTimes rest
  | .tick now :: rest => now :: tickTimes rest

/-- Example CPU measurement (zero payload, capture time 0). -/
def mCPU : Metric := { type := "cpu", timestamp := 0, data := .cpu CPUMetric.zero }

/-- Example memory measurement (capture time 1). -/
def mMemory : Metric := { type := "memory", timestamp := 1, data := .memory MemoryMetric.zero }

/-- Example disk measurement (capture time 2). -/
def mDisk : Metric := { type := "disk", timestamp := 2, data := .disk DiskMetric.zero }

/-- Example network measurement (capture time 3). -/
def mNetwork : Metric := { type := "network", timestamp := 3, data := .network NetworkMetric.zero }

/-- Example CPU measurement with a distinctive payload (capture time 10). -/
def mCPU2 : Metric :=
  { type := "cpu", timestamp := 10, data := .cpu ⟨7, [1, 2], [3, 4, 5]⟩ }

/-- Claim C6: `GetLatestSample` called before the aggregator has
published any sample returns the zero-value `Sample` — the
zero-timestamp sentinel with all four kind payloads at their zero
values. -/
theorem C6_getLatestSample_initially_zero :
    NewAggregator.GetLatestSample = Sample.zero ∧
    NewAggregator.GetLatestSample.timestamp = 0 ∧
    NewAggregator.GetLatestSample.cpu = CPUMetric.zero ∧
    NewAggregator.GetLatestSample.memory = MemoryMetric.zero ∧
    NewAggregator.GetLatestSample.disk = DiskMetric.zero ∧
    NewAggregator.GetLatestSample.network = NetworkMetric.zero :=
  ⟨rfl, rfl, rfl, rfl, rfl, rfl⟩

/-- Claim C7: when only the CPU and memory slots have ever been
written (disk and network never observed), the sample built by
`createSample` carries the stored CPU and memory payloads and has its
disk and network fields exactly equal to their zero values. -/
theorem C7_createSample_unobserved_kinds_zero (a : Aggregator)
    (c : CPUMetric) (m : MemoryMetric) (now : Time)
    (hc : a.currentCPU = some c) (hm : a.currentMemory = some m)
    (hd : a.currentDisk = none) (hn : a.currentNetwork = none) :
    (a.createSample now).latestSample =
      { timestamp := now, cpu := c, memory := m,
        disk := DiskMetric.zero, network := NetworkMetric.zero } := by
  simp [Aggregator.createSample, hc, hm, hd, hn, Sample.zero]

/-- Concrete aggregator state for the C7 witness: CPU and memory
observed, disk and network never observed. -/
def aggCPUMemOnly : Aggregator :=
  { currentCPU := some ⟨1, [2], [3]⟩
    currentMemory := some ⟨4, 5, 6, 7, 8, 9, 10⟩
    currentDisk := none
    currentNetwork := none
    latestSample := Sample.zero }

/-- Witness for C7 at a concrete state and clock value. -/
theorem C7_witness :
    (aggCPUMemOnly.createSample 42).latestSample =
      { timestamp := 42, cpu := ⟨1, [2], [3]⟩, memory := ⟨4, 5, 6, 7, 8, 9, 10⟩,
        disk := DiskMetric.zero, network := NetworkMetric.zero } :=
  C7_createSample_unobserved_kinds_zero aggCPUMemOnly _ _ 42 rfl rfl rfl rfl

/-- Claim C2: a non-blocking enqueue on a capacity-C mailbox succeeds
iff the queue holds fewer than C items; on failure the queue is
unchanged and the new measurement discarded; dequeue is FIFO; and the
capacity-2 scenario behaves as specified: CPU and memory enqueues
succeed, a disk enqueue against the full queue is rejected leaving
{CPU, memory} in order, both dequeue in order, and a subsequent
network enqueue succeeds. -/
theorem C2_mailbox_bounded_fifo_drop_new :
    (∀ (mb : Mailbox) (m : Metric),
      ((mb.trySend m).2 = true ↔ mb.queue.length < mb.capacity) ∧
      ((mb.trySend m).2 = false → (mb.trySend m).1 = mb) ∧
      ((mb.trySend m).2 = true →
        (mb.trySend m).1 = { mb with queue := mb.queue ++ [m] })) ∧
    (∀ (c : Nat) (m : Metric) (rest : List Metric),
      (Mailbox.mk c (m :: rest)).recv = some (m, Mailbox.mk c rest)) ∧
    ((Mailbox.mk 2 []).trySend mCPU = (Mailbox.mk 2 [mCPU], true) ∧
     (Mailbox.mk 2 [mCPU]).trySend mMemory = (Mailbox.mk 2 [mCPU, mMemory], true) ∧
     (Mailbox.mk 2 [mCPU, mMemory]).trySend mDisk = (Mailbox.mk 2 [mCPU, mMemory], false) ∧
     (Mailbox.mk 2 [mCPU, mMemory]).recv = some (mCPU, Mailbox.mk 2 [mMemory]) ∧
     (Mailbox.mk 2 [mMemory]).recv = some (mMemory, Mailbox.mk 2 []) ∧
     (Mailbox.mk 2 []).trySend mNetwork = (Mailbox.mk 2 [mNetwork], true)) := by
  refine ⟨fun mb m => ⟨?_, ?_, ?_⟩, fun c m rest => rfl,
    rfl, rfl, rfl, rfl, rfl, rfl⟩
  · by_cases h : mb.queue.length < mb.capacity <;> simp [Mailbox.trySend, h]
  · by_cases h : mb.queue.length < mb.capacity <;> simp [Mailbox.trySend, h]
  · by_cases h : mb.queue.length < mb.capacity <;> simp [Mailbox.trySend, h]

/-- Witness for C2: the rejected disk enqueue leaves the full queue
untouched. -/
theorem C2_witness :
    ((Mailbox.mk 2 [mCPU, mMemory]).trySend mDisk).1 = Mailbox.mk 2 [mCPU, mMemory] :=
  (C2_mailbox_bounded_fifo_drop_new.1 (Mailbox.mk 2 [mCPU, mMemory]) mDisk).2.1 rfl

/-- Claim C10: a metric whose tag is one of the four recognized kinds
but whose payload is not of the matching type leaves every slot
unchanged and logs nothing (silently discarded), whereas an unknown
tag leaves the slots unchanged and logs the unknown-type message. -/
theorem C10_storeMetric_mismatched_payload_discarded :
    (∀ (a : Aggregator) (m : Metric),
      (m.type = "cpu" ∨ m.type = "memory" ∨ m.type = "disk" ∨ m.type = "network") →
      m.wellFormed = false →
      a.storeMetric m = (a, none)) ∧
    (∀ (a : Aggregator) (m : Metric),
      m.type ≠ "cpu" → m.type ≠ "memory" → m.type ≠ "disk" → m.type ≠ "network" →
      a.storeMetric m = (a, some ("Unknown metric type: " ++ m.type))) := by
  constructor
  · intro a m hk hmis
    rcases m with ⟨ty, ts, data⟩
    rcases hk with h | h | h | h <;> subst h <;> cases data <;>
      simp_all [Aggregator.storeMetric, Metric.wellFormed]
  · intro a m h1 h2 h3 h4
    simp [Aggregator.storeMetric, h1, h2, h3, h4]

/-- Witness for C10: a "cpu"-tagged metric carrying a memory payload
is discarded without touching the state and without a log line. -/
theorem C10_witness :
    NewAggregator.storeMetric { type := "cpu", timestamp := 0, data := .memory MemoryMetric.zero }
      = (NewAggregator, none) :=
  C10_storeMetric_mismatched_payload_discarded.1 NewAggregator _ (Or.inl rfl) rfl

/-- Counterexample to claim C5: the environment value `"-5s"` parses
successfully (Go's `time.ParseDuration` accepts negative durations),
so `getEnvDuration` returns the negative duration verbatim instead of
falling back to the default — the value used at startup is not
positive. Likewise `getEnvInt` passes `-1` through. -/
theorem C5_counterexample :
    getEnvDuration goParseDuration "-5s" 5000000000 = -5000000000 ∧
    getEnvDuration goParseDuration "-5s" 5000000000 < 0 ∧
    getEnvInt goAtoi "-1" 100 = -1 ∧
    getEnvInt goAtoi "-1" 100 < 0 := by
  refine ⟨by decide, by decide, by decide, by decide⟩

/-- Claim C5 (amended): an unset variable or a value the external
parser rejects falls back to the documented default, but a value that
parses successfully — including a zero or negative one — is used
verbatim, so the values used at startup are not guaranteed positive. -/
theorem C5_amended_env_fallback_on_parse_error_only :
    (∀ (parse : String → Option Int) (d : Int), getEnvDuration parse "" d = d) ∧
    (∀ (parse : String → Option Int) (value : String) (d : Int),
      parse value = none → getEnvDuration parse value d = d) ∧
    (∀ (parse : String → Option Int) (value : String) (d v : Int),
      value ≠ "" → parse value = some v → getEnvDuration parse value d = v) ∧
    (∀ (atoi : String → Option Int) (d : Int), getEnvInt atoi "" d = d) ∧
    (∀ (atoi : String → Option Int) (value : String) (d : Int),
      atoi value = none → getEnvInt atoi value d = d) ∧
    (∀ (atoi : String → Option Int) (value : String) (d v : Int),
      value ≠ "" → atoi value = some v → getEnvInt atoi value d = v) ∧
    getEnvDuration goParseDuration "abc" 5000000000 = 5000000000 := by
  refine ⟨fun parse d => rfl, ?_, ?_, fun f d => rfl, ?_, ?_, by decide⟩
  · intro parse value d h
    by_cases hv : value = "" <;> simp [getEnvDuration, hv, h]
  · intro parse value d v hv h
    simp [getEnvDuration, hv, h]
  · intro f value d h
    by_cases hv : value = "" <;> simp [getEnvInt, hv, h]
  · intro f value d v hv h
    simp [getEnvInt, hv, h]

/-- Witness for the amended C5: the parseable negative duration
`"-5s"` is used verbatim. -/
theorem C5_witness :
    getEnvDuration goParseDuration "-5s" 5000000000 = -5000000000 :=
  C5_amended_env_fallback_on_parse_error_only.2.2.1 goParseDuration "-5s"
    5000000000 (-5000000000) (by decide) (by decide)

/-- Healthy probe results for a memory collection cycle. -/
def memProbesOK : MemoryProbes :=
  { vmem := .ok ⟨16, 8, 8, 50⟩, swap := .ok ⟨4, 1, 25⟩ }

/-- Counterexample to claim C3: before any loop event occurs, the CPU
worker has made no collection attempt — its first probe happens only
at the first ticker fire — while the memory worker has already made
one. -/
theorem C3_counterexample :
    CPUCollector.start [] = [] ∧
    (MemoryCollector.start 0 memProbesOK []).length = 1 :=
  ⟨rfl, rfl⟩

/-- Claim C3 (amended): the memory, disk, and network workers each
perform one collection attempt immediately at start, before any tick;
the CPU worker performs none before its first loop event and exactly
one per processed tick. -/
theorem C3_amended_initial_collection :
    (∀ (t : Time) (p : MemoryProbes), (MemoryCollector.start t p []).length = 1) ∧
    (∀ (t : Time) (p : DiskProbes), (DiskCollector.start t p []).length = 1) ∧
    (∀ (t : Time) (p : NetworkProbes), (NetworkCollector.start t p []).length = 1) ∧
    CPUCollector.start [] = [] ∧
    (∀ (now : Time) (p : CPUProbes) (rest : List CPUEvent),
      (CPUCollector.start (.tick now p :: rest)).length
        = (CPUCollector.start rest).length + 1) :=
  ⟨fun t p => rfl, fun t p => rfl, fun t p => rfl, rfl, fun now p rest => rfl⟩

/-- Counterexample to claim C4: when cancellation fires while the
memory worker is in its hand-off attempt, the worker cannot observe
it there — its only possible outcomes are completing the send (queue
not full) or dropping the metric (queue full), never aborting. -/
theorem C4_counterexample :
    MemoryCollector.sendOutcomes true true = [SendOutcome.dropped] ∧
    MemoryCollector.sendOutcomes true false = [SendOutcome.sent] ∧
    SendOutcome.aborted ∉ MemoryCollector.sendOutcomes true true ∧
    SendOutcome.aborted ∉ MemoryCollector.sendOutcomes true false := by
  decide

/-- Claim C4 (amended): every worker observes cancellation between
ticks (a cancellation event terminates the loop), and no worker ever
blocks on the hand-off — the attempt always completes immediately
with one of the modelled outcomes. Only the CPU worker additionally
observes cancellation during the hand-off attempt and can abort
mid-send; the memory, disk, and network workers never observe
cancellation there. -/
theorem C4_amended_cancellation_observation :
    (∀ (cancelled full : Bool), CPUCollector.sendOutcomes cancelled full ≠ []) ∧
    (∀ (full : Bool), SendOutcome.aborted ∈ CPUCollector.sendOutcomes true full) ∧
    (∀ (cancelled full : Bool),
      MemoryCollector.sendOutcomes cancelled full ≠ [] ∧
      SendOutcome.aborted ∉ MemoryCollector.sendOutcomes cancelled full) ∧
    (∀ (cancelled full : Bool),
      DiskCollector.sendOutcomes cancelled full ≠ [] ∧
      SendOutcome.aborted ∉ DiskCollector.sendOutcomes cancelled full) ∧
    (∀ (cancelled full : Bool),
      NetworkCollector.sendOutcomes cancelled full ≠ [] ∧
      SendOutcome.aborted ∉ NetworkCollector.sendOutcomes cancelled full) ∧
    (∀ (rest : List CPUEvent), CPUCollector.start (.cancel :: rest) = []) ∧
    (∀ (rest : List MemoryEvent), MemoryCollector.loop (.cancel :: rest) = []) ∧
    (∀ (rest : List DiskEvent), DiskCollector.loop (.cancel :: rest) = []) ∧
    (∀ (rest : List NetworkEvent), NetworkCollector.loop (.cancel :: rest) = []) := by
  refine ⟨by decide, by decide, by decide, by decide, by decide,
    fun rest => rfl, fun rest => rfl, fun rest => rfl, fun rest => rfl⟩

/-- Witness for the amended C4: with cancellation fired and the
mailbox full, aborting is a possible CPU hand-off outcome. -/
theorem C4_witness :
    SendOutcome.aborted ∈ CPUCollector.sendOutcomes true true :=
  C4_amended_cancellation_observation.2.1 true

/-- Counterexample to claim C8: the CPU worker's load-average probe
fails, yet the cycle is not skipped — a measurement is still emitted,
with the load averages replaced by zeros. -/
theorem C8_counterexample :
    CPUCollector.collectCPUMetrics 0 (.ok [50]) (.ok [30, 70]) (.error "load probe failed")
      = .ok { type := "cpu", timestamp := 0,
              data := .cpu { overallPercent := 50, perCorePercent := [30, 70],
                             loadAverage := [0, 0, 0] } } :=
  rfl

/-- Claim C8 (amended): for the memory, disk, and network workers any
probe error makes the cycle emit no measurement; for the CPU worker
an error from either `cpu.Percent` probe does so, but a load-average
probe error is recovered with zero load averages and the cycle still
emits. A failed cycle never retries and never terminates the worker:
each loop simply proceeds to its next event. -/
theorem C8_amended_probe_error_skips_cycle :
    (∀ (now : Time) (e : String) (s : Except String SwapMemoryStat),
      MemoryCollector.collectAndSend now (.error e) s = none) ∧
    (∀ (now : Time) (v : VirtualMemoryStat) (e : String),
      MemoryCollector.collectAndSend now (.ok v) (.error e) = none) ∧
    (∀ (now : Time) (e : String) (io : Except String (List DiskIOCountersStat)),
      DiskCollector.collectAndSend now (.error e) io = none) ∧
    (∀ (now : Time) (u : UsageStat) (e : String),
      DiskCollector.collectAndSend now (.ok u) (.error e) = none) ∧
    (∀ (now : Time) (e : String),
      NetworkCollector.collectAndSend now (.error e) = none) ∧
    (∀ (now : Time) (e : String) (pc : Except String (List Rat))
        (l : Except String AvgStat),
      CPUCollector.collectCPUMetrics now (.error e) pc l = .error e) ∧
    (∀ (now : Time) (ov : List Rat) (e : String) (l : Except String AvgStat),
      CPUCollector.collectCPUMetrics now (.ok ov) (.error e) l = .error e) ∧
    (∀ (now : Time) (p : CPUProbes) (rest : List CPUEvent),
      CPUCollector.start (.tick now p :: rest)
        = (match CPUCollector.collectCPUMetrics now p.overallPercent
              p.perCorePercent p.loadAvg with
           | .error _ => none
           | .ok m => some m) :: CPUCollector.start rest) ∧
    (∀ (now : Time) (p : MemoryProbes) (rest : List MemoryEvent),
      MemoryCollector.loop (.tick now p :: rest)
        = MemoryCollector.collectAndSend now p.vmem p.swap :: MemoryCollector.loop rest) ∧
    (∀ (now : Time) (p : DiskProbes) (rest : List DiskEvent),
      DiskCollector.loop (.tick now p :: rest)
        = DiskCollector.collectAndSend now p.usage p.ioCounters :: DiskCollector.loop rest) ∧
    (∀ (now : Time) (p : NetworkProbes) (rest : List NetworkEvent),
      NetworkCollector.loop (.tick now p :: rest)
        = NetworkCollector.collectAndSend now p.ioCounters :: NetworkCollector.loop rest) :=
  ⟨fun now e s => rfl, fun now v e => rfl, fun now e io => rfl,
   fun now u e => rfl, fun now e => rfl, fun now e pc l => rfl,
   fun now ov e l => rfl, fun now p rest => rfl, fun now p rest => rfl,
   fun now p rest => rfl, fun now p rest => rfl⟩

/-- The sample `createSample` publishes is stamped with the clock
value read during that call. -/
lemma createSample_latestSample_timestamp (a : Aggregator) (now : Time) :
    (a.createSample now).latestSample.timestamp = now := by
  rcases a with ⟨cc, cm, cd, cn, ls⟩
  cases cc <;> cases cm <;> cases cd <;> cases cn <;> rfl

/-- The timestamps of the samples the aggregator loop publishes are
exactly the clock reads of its ticker fires, in order. -/
lemma start_published_timestamps (a : Aggregator) (events : List AggEvent) :
    (a.start events).2.map Sample.timestamp = tickTimes events := by
  induction events generalizing a with
  | nil => rfl
  | cons e rest ih =>
    cases e with
    | cancel => rfl
    | recv m => exact ih _
    | tick now =>
      simp [Aggregator.start, tickTimes, ih, createSample_latestSample_timestamp]

/-- Claim C9: the aggregator loop is serial, so if the clock reads at
its ticker fires are non-decreasing then the timestamps of the
published samples are non-decreasing in publication order. -/
theorem C9_published_timestamps_monotone (a : Aggregator) (events : List AggEvent)
    (hclock : (tickTimes events).Pairwise (· ≤ ·)) :
    ((a.start events).2.map Sample.timestamp).Pairwise (· ≤ ·) := by
  rw [start_published_timestamps]
  exact hclock

/-- Witness for C9 at a concrete schedule with two ticks. -/
theorem C9_witness :
    (tickTimes [AggEvent.tick 1, AggEvent.recv mCPU, AggEvent.tick 2]).Pairwise (· ≤ ·) ∧
    ((NewAggregator.start [AggEvent.tick 1, AggEvent.recv mCPU, AggEvent.tick 2]).2.map
        Sample.timestamp).Pairwise (· ≤ ·) :=
  ⟨by decide, C9_published_timestamps_monotone NewAggregator _ (by decide)⟩

/-- Effect of one `storeMetric` call on a kind's slot: a well-formed
metric overwrites exactly its own kind's slot. -/
lemma storeMetric_slot (a : Aggregator) (m : Metric) (k : Kind)
    (hwf : m.wellFormed = true) :
    ((a.storeMetric m).1).slot k
      = if m.type == k.tag then some m.data else a.slot k := by
  rcases m with ⟨ty, ts, data⟩
  cases data
  all_goals
    simp only [Metric.wellFormed, beq_iff_eq] at hwf
    subst hwf
    cases k <;> simp [Aggregator.storeMetric, Aggregator.slot, Kind.tag]

/-- Effect of delivering a whole sequence: each kind's slot ends at
the payload of the last well-formed metric of that kind, or keeps its
prior value when the sequence contains none of that kind. -/
lemma deliver_slot (ms : List Metric) (a : Aggregator) (k : Kind)
    (hwf : ∀ m ∈ ms, m.wellFormed = true) :
    (a.deliver ms).slot k
      = ((ms.filter (fun m => m.type == k.tag)).getLast?.map Metric.data).or
          (a.slot k) := by
  induction ms generalizing a with
  | nil => rfl
  | cons m rest ih =>
    have hm : m.wellFormed = true := hwf m (by simp)
    have hrest : ∀ x ∈ rest, x.wellFormed = true := fun x hx => hwf x (by simp [hx])
    have hstep : a.deliver (m :: rest) = ((a.storeMetric m).1).deliver rest := rfl
    rw [hstep, ih _ hrest, storeMetric_slot a m k hm]
    cases htag : (m.type == k.tag) with
    | true =>
      simp only [List.filter_cons, htag, if_true, ite_true]
      cases h2 : rest.filter (fun x => x.type == k.tag) with
      | nil => simp [h2]
      | cons y ys =>
        have hsome : ∃ z, (y :: ys).getLast? = some z := by
          have h3 : (y :: ys).getLast?.isSome = true :=
            List.getLast?_isSome.mpr (by simp)
          exact Option.isSome_iff_exists.mp h3
        obtain ⟨z, hz⟩ := hsome
        simp [h2, List.getLast?_cons_cons, hz]
    | false =>
      simp [List.filter_cons, htag]

/-- Claim C1: for any sequence of well-formed measurements delivered
to the aggregator via `storeMetric` and any kind with at least one
measurement in the sequence, the slot for that kind afterwards holds
exactly the payload of the last measurement of that kind, regardless
of interleaving with other kinds (last-write-wins per kind). -/
theorem C1_storeMetric_last_write_wins (a : Aggregator) (ms : List Metric) (k : Kind)
    (hwf : ∀ m ∈ ms, m.wellFormed = true)
    (h : ms.filter (fun m => m.type == k.tag) ≠ []) :
    (a.deliver ms).slot k
      = some (((ms.filter (fun m => m.type == k.tag)).getLast h).data) := by
  rw [deliver_slot ms a k hwf, List.getLast?_eq_getLast _ h]
  rfl

/-- Witness for C1: two CPU measurements interleaved with a memory
measurement; the CPU slot ends at the second CPU payload. -/
theorem C1_witness :
    (NewAggregator.deliver [mCPU, mMemory, mCPU2]).slot Kind.cpu
      = some ((([mCPU, mMemory, mCPU2].filter
          (fun m => m.type == Kind.cpu.tag)).getLast (by decide)).data) :=
  C1_storeMetric_last_write_wins NewAggregator [mCPU, mMemory, mCPU2] Kind.cpu
    (by decide) (by decide)

end GoMetrics
